import Mathlib

/-!
Shallow embedding of the alx_travel_app listings core: the data model and
validation rules of `listings/models.py`, the serializer validators of
`alx_travel_app/listings/serializers.py`, and the database seeding command
`alx_travel_app/listings/management/commands/seed.py`.

Conventions of the embedding:
* Calendar dates (`DateField`) are integer day ordinals (`Int`); "today"
  (`timezone.now().date()` / `datetime.now().date()`) is a parameter.
* Fixed-point decimals with two fractional digits (`DecimalField` with
  `decimal_places=2`) are integer cents (`Int`), which makes the arithmetic
  exact, as Python `Decimal` is.
* Auto-assigned primary keys (UUIDs / serial ids) are `Nat` atoms; their
  concrete values never influence the validation logic.
* Fallible operations return `Except String` mirroring raised
  `ValidationError`s / database errors.
* The pseudo-random source of the seed command is an explicit stream of
  choices; the guarantees of `random.randint` / `random.choice` /
  `random.sample` (range bounds, membership, distinctness, sample size)
  become hypotheses of the theorems.
-/

namespace AlxTravel

/-- Result of `Booking.clean` in `listings/models.py`: raises
`ValidationError` when both dates are set (non-`None`, hence truthy) and
`end_date <= start_date`. -/
def Booking.clean (start_date end_date : Option Int) : Except String Unit :=
  match end_date, start_date with
  | some e, some s =>
      if e ≤ s then Except.error "End date must be after start date."
      else Except.ok ()
  | _, _ => Except.ok ()

/-- The date fields of the `data` dict examined by
`BookingSerializer.validate_booking` (it reads only `start_date` and
`end_date`; a missing key yields `None` via `data.get`). -/
structure BookingData where
  start_date : Option Int
  end_date : Option Int
deriving Repr, DecidableEq

/-- Embedding of `BookingSerializer.validate_booking` in
`serializers.py`: `inst` is `True` when `self.instance` is set (an
update of an existing booking), `False` for a create; `today` is
`timezone.now().date()`. -/
def BookingSerializer.validate_booking (inst : Bool) (today : Int)
    (data : BookingData) : Except String BookingData :=
  match data.start_date, data.end_date with
  | some s, some e =>
      if e ≤ s then Except.error "End date must be after start date."
      else if inst = false then
        if s < today then Except.error "Start date cannot be in the past."
        else Except.ok data
      else Except.ok data
  | _, _ => Except.ok data

/-- Embedding of `ListingSerializer.validate_price_per_night` in
`serializers.py`; `value` is in cents. -/
def ListingSerializer.validate_price_per_night (value : Int) :
    Except String Int :=
  if value ≤ 0 then
    Except.error "Price per night must be greater than zero."
  else Except.ok value

/-- Embedding of `ReviewSerializer.validate_rating` in `serializers.py`. -/
def ReviewSerializer.validate_rating (value : Int) : Except String Int :=
  if value < 1 ∨ value > 5 then
    Except.error "Rating must be between 1 and 5."
  else Except.ok value

/-- User row (`django.contrib.auth.models.User`): the fields read or
written by this repository. -/
structure User where
  id : Nat
  username : String
  email : String
  first_name : String
  last_name : String
  password : String
  is_superuser : Bool
deriving Repr, DecidableEq

/-- Listing row (`Listing` model in `listings/models.py`); `host` is the
id of the owning `User`, `price_per_night` is in cents. -/
structure Listing where
  property_id : Nat
  host : Nat
  name : String
  description : String
  location : String
  price_per_night : Int
deriving Repr, DecidableEq

/-- Booking row (`Booking` model in `listings/models.py`); `property` and
`user` are foreign-key ids, dates are day ordinals, `total_price` is in
cents. -/
structure Booking where
  booking_id : Nat
  property : Nat
  user : Nat
  start_date : Int
  end_date : Int
  total_price : Int
  status : String
deriving Repr, DecidableEq

/-- Review row (`Review` model in `listings/models.py`). -/
structure Review where
  review_id : Nat
  property : Nat
  user : Nat
  rating : Int
  comment : String
deriving Repr, DecidableEq

/-- Two reviews violate the `unique_together = [property, user]`
constraint of `Review.Meta` exactly when they agree on both foreign
keys. -/
def distinctPair (r1 r2 : Review) : Prop :=
  ¬ (r1.property = r2.property ∧ r1.user = r2.user)

/-- The database store: one list per table (`auth_user`, `property`,
`booking`, `review`), in insertion order. -/
structure Store where
  users : List User
  listings : List Listing
  bookings : List Booking
  reviews : List Review
deriving Repr, DecidableEq

/-- The empty store. -/
def emptyStore : Store := ⟨[], [], [], []⟩

/-- Membership of a character segment in a character list (helper for the
Python substring test `sub in s`). -/
def containsSeg (sub : List Char) : List Char → Bool
  | [] => sub.isEmpty
  | c :: rest => sub.isPrefixOf (c :: rest) || containsSeg sub rest

/-- Python substring containment `sub in s`, used by the seed command in
`hosts = [u for u in users if "host" in u.username]` and the analogous
guests filter. -/
def strContains (s sub : String) : Bool :=
  containsSeg sub.toList s.toList

/-- One entry of `users_data` in `Command.create_users` of `seed.py`. -/
structure UserData where
  username : String
  email : String
  first_name : String
  last_name : String
deriving Repr, DecidableEq

/-- The fixed `users_data` list of `Command.create_users`. -/
def users_data : List UserData :=
  [⟨"john_host", "john@example.com", "John", "Doe"⟩,
   ⟨"jane_host", "jane@example.com", "Jane", "Smith"⟩,
   ⟨"mike_guest", "mike@example.com", "Mike", "Johnson"⟩,
   ⟨"sarah_guest", "sarah@example.com", "Sarah", "Williams"⟩,
   ⟨"david_host", "david@example.com", "David", "Brown"⟩,
   ⟨"emma_guest", "emma@example.com", "Emma", "Davis"⟩]

/-- A freshly inserted user row: the `defaults` of `get_or_create` plus
the created branch `user.set_password("password123"); user.save()`. The
id models the auto-assigned primary key. -/
def mkNewUser (id : Nat) (d : UserData) : User :=
  ⟨id, d.username, d.email, d.first_name, d.last_name, "password123", false⟩

/-- Embedding of `User.objects.get_or_create(username=..., defaults=...)`
as used in `Command.create_users`: look the username up; reuse the stored
row when found, insert a fresh row otherwise. Returns the updated table
and the obtained user. -/
def get_or_create_user (st : List User) (d : UserData) : List User × User :=
  match st.find? (fun u => u.username == d.username) with
  | some u => (st, u)
  | none => (st ++ [mkNewUser st.length d], mkNewUser st.length d)

/-- The loop of `Command.create_users` over a given data list: threads the
user table through `get_or_create_user` and collects the obtained users. -/
def create_users_go (st : List User) : List UserData → List User × List User
  | [] => (st, [])
  | d :: rest =>
      let p := get_or_create_user st d
      let q := create_users_go p.1 rest
      (q.1, p.2 :: q.2)

/-- Embedding of `Command.create_users` of `seed.py`. -/
def create_users (st : List User) : List User × List User :=
  create_users_go st users_data

/-- One entry of `listings_data` in `Command.create_listings`;
`price_per_night` in cents. -/
structure ListingData where
  name : String
  description : String
  location : String
  price_per_night : Int
deriving Repr, DecidableEq

/-- The fixed `listings_data` list of `Command.create_listings` (prices
250.00, 180.00, 300.00, 450.00, 120.00, 220.00, 195.00, 350.00 as
cents). -/
def listings_data : List ListingData :=
  [⟨"Cozy Beach House",
    "Beautiful beachfront property with stunning ocean views. Perfect for families and couples seeking a relaxing getaway.",
    "Malibu, California", 25000⟩,
   ⟨"Mountain Retreat Cabin",
    "Secluded cabin in the mountains with hiking trails nearby. Ideal for nature lovers and adventure seekers.",
    "Aspen, Colorado", 18000⟩,
   ⟨"Downtown Luxury Apartment",
    "Modern apartment in the heart of the city with all amenities. Walking distance to restaurants, shops, and entertainment.",
    "New York, NY", 30000⟩,
   ⟨"Countryside Villa",
    "Spacious villa surrounded by vineyards and rolling hills. Features a private pool and outdoor dining area.",
    "Tuscany, Italy", 45000⟩,
   ⟨"Tropical Paradise Bungalow",
    "Charming bungalow steps from pristine beaches. Includes hammocks, outdoor shower, and tropical garden.",
    "Bali, Indonesia", 12000⟩,
   ⟨"Historic City Loft",
    "Renovated loft in a historic building with exposed brick and high ceilings. Perfect for urban explorers.",
    "Boston, Massachusetts", 22000⟩,
   ⟨"Lakefront Cottage",
    "Peaceful cottage on a private lake with dock and kayaks included. Great for fishing and water activities.",
    "Lake Tahoe, Nevada", 19500⟩,
   ⟨"Desert Oasis Villa",
    "Stunning modern villa with infinity pool overlooking desert landscape. Solar-powered and eco-friendly.",
    "Scottsdale, Arizona", 35000⟩]

/-- Placeholder user for the total version of list indexing (never
reached when the hosts list is nonempty). -/
def defUser : User := ⟨0, "", "", "", "", "", false⟩

/-- A listing row created by `Listing.objects.create` in
`Command.create_listings`; the id models the fresh UUID primary key. -/
def mkListing (pid : Nat) (host : User) (d : ListingData) : Listing :=
  ⟨pid, host.id, d.name, d.description, d.location, d.price_per_night⟩

/-- Embedding of `Command.create_listings` of `seed.py`: filters users to
hosts (`"host" in username`), then inserts one row per `listings_data`
entry with host `hosts[i % len(hosts)]`. `none` models the
`ZeroDivisionError` of `i % len(hosts)` on an empty hosts list. Returns
the updated table and, second, the list of created rows. -/
def create_listings (storeL : List Listing) (users : List User) :
    Option (List Listing × List Listing) :=
  let hosts := users.filter (fun u => strContains u.username "host")
  if hosts.isEmpty then none
  else
    let newL := listings_data.mapIdx
      (fun i d => mkListing (storeL.length + i) (hosts.getD (i % hosts.length) defUser) d)
    some (storeL ++ newL, newL)

/-- The `statuses` pool of `Command.create_bookings`. -/
def seeder_statuses : List String :=
  ["pending", "confirmed", "confirmed", "confirmed", "canceled"]

/-- The random draws made by one iteration of the booking loop of
`Command.create_bookings`: `listing = random.choice(listings)`,
`guest = random.choice(guests)`, `start_offset = random.randint(-30, 60)`,
`duration = random.randint(2, 14)`, `status = random.choice(statuses)`.
The draws carry the chosen elements; the guarantees of the random
primitives (membership, range bounds) are hypotheses of the theorems. -/
structure BookingChoice where
  listing : Listing
  guest : User
  start_offset : Int
  duration : Nat
  status : String
deriving Repr, DecidableEq

/-- The booking row built by iteration `i` of `Command.create_bookings`:
`start_date = datetime.now().date() + timedelta(days=start_offset)`,
`end_date = start_date + timedelta(days=duration)`,
`total_price = listing.price_per_night * duration` (exact in cents). -/
def mkBooking (today : Int) (i : Nat) (c : BookingChoice) : Booking :=
  ⟨i, c.listing.property_id, c.guest.id,
   today + c.start_offset,
   today + c.start_offset + (c.duration : Int),
   c.listing.price_per_night * (c.duration : Int),
   c.status⟩

/-- Embedding of `Command.create_bookings` of `seed.py`: the
`for i in range(15)` loop, with `cs` the stream of random draws. Returns
the list of created rows. -/
def create_bookings (today : Int) (cs : Nat → BookingChoice) : List Booking :=
  (List.range 15).map (fun i => mkBooking today i (cs i))

/-- The fixed `review_comments` pool of `Command.create_reviews`. -/
def review_comments : List String :=
  ["Amazing place! Highly recommended for anyone visiting the area.",
   "Great location and very clean. The host was very responsive.",
   "Beautiful property with stunning views. Would definitely stay again.",
   "Good value for money. Some minor issues but overall satisfied.",
   "Exactly as described. Perfect for our family vacation.",
   "Outstanding experience. The property exceeded our expectations.",
   "Nice place but could use some updates. Still enjoyable though.",
   "Wonderful stay! The amenities were top-notch.",
   "Very comfortable and well-maintained. Great communication with host.",
   "Decent property but not quite what we expected from the photos."]

/-- The draws of one inner review iteration of `Command.create_reviews`:
a guest from `random.sample(guests, ...)`, `rating = random.randint(3, 5)`
and `comment = random.choice(review_comments)`. -/
structure GuestPick where
  guest : User
  rating : Int
  comment : String
deriving Repr, DecidableEq

/-- The draws made for one sampled listing in `Command.create_reviews`:
`num = random.randint(1, 3)` and the outcome of
`random.sample(guests, min(num, len(guests)))` together with the
per-guest rating and comment draws. -/
structure ReviewChoice where
  num : Nat
  picks : List GuestPick
deriving Repr, DecidableEq

/-- The review rows created for one sampled listing by the inner loop of
`Command.create_reviews`. -/
def reviews_for (l : Listing) (c : ReviewChoice) : List Review :=
  c.picks.map (fun p => ⟨0, l.property_id, p.guest.id, p.rating, p.comment⟩)

/-- The outer loop of `Command.create_reviews` over the sampled listings,
indexing into the stream of per-listing draws. -/
def create_reviews_go (rc : Nat → ReviewChoice) : Nat → List Listing → List Review
  | _, [] => []
  | i, l :: rest => reviews_for l (rc i) ++ create_reviews_go rc (i + 1) rest

/-- Embedding of `Command.create_reviews` of `seed.py`: `sampled` is the
outcome of `random.sample(listings, min(6, len(listings)))` (size and
distinctness are hypotheses of the theorems), `rc` the stream of
per-listing draws. Returns the list of created rows. -/
def create_reviews (sampled : List Listing) (rc : Nat → ReviewChoice) : List Review :=
  create_reviews_go rc 0 sampled

/-- The `--clear` branch of `Command.handle`: deletes all reviews, all
bookings, all listings, and all non-superuser users. -/
def clearData (s : Store) : Store :=
  ⟨s.users.filter (fun u => u.is_superuser), [], [], []⟩

/-- Embedding of `Command.handle` of `seed.py`: optional clear, then
create users, listings, bookings and reviews in order, appending the
created rows to the store. `none` models an uncaught exception (empty
hosts or guests pool for the random choices). -/
def seedRun (today : Int) (cs : Nat → BookingChoice) (sampled : List Listing)
    (rc : Nat → ReviewChoice) (clear : Bool) (s : Store) : Option Store :=
  let s0 := if clear then clearData s else s
  let up := create_users s0.users
  match create_listings s0.listings up.2 with
  | none => none
  | some lp =>
      let guests := up.2.filter (fun u => strContains u.username "guest")
      if guests.isEmpty then none
      else some ⟨up.1, lp.1,
                 s0.bookings ++ create_bookings today cs,
                 s0.reviews ++ create_reviews sampled rc⟩

/-- The users returned by `create_users` on an empty table (a `--clear`
run of the seed command against an empty store). -/
def seeded_users : List User := (create_users []).2

/-- The hosts filter of the seed command applied to the seeded users. -/
def seeded_hosts : List User :=
  seeded_users.filter (fun u => strContains u.username "host")

/-- The guests filter of the seed command applied to the seeded users. -/
def seeded_guests : List User :=
  seeded_users.filter (fun u => strContains u.username "guest")

/-- The listings created by `create_listings` on an empty table from the
seeded users. -/
def seeded_listings : List Listing :=
  ((create_listings [] seeded_users).getD ([], [])).2

/-- Modelled from the spec: the serializer-backed Listing create path
(section 4.1 of the spec; the persistence engine executing the write is
framework code absent from `src/`). It runs
`ListingSerializer.validate_price_per_night` from `serializers.py`; on
failure the error is returned and the table is untouched, on success the
row is appended. -/
def create_listing (ls : List Listing) (pid host : Nat)
    (name description location : String) (price : Int) :
    List Listing × Except String Listing :=
  match ListingSerializer.validate_price_per_night price with
  | Except.error m => (ls, Except.error m)
  | Except.ok v => (ls ++ [⟨pid, host, name, description, location, v⟩],
                    Except.ok ⟨pid, host, name, description, location, v⟩)

/-- Modelled from the spec: the serializer-backed Listing update path for
the validated `price_per_night` field (section 4.1 of the spec; the
persistence engine is framework code absent from `src/`). On validation
failure the table is untouched; on success the addressed row gets the new
price. -/
def update_listing (ls : List Listing) (pid : Nat) (price : Int) :
    List Listing × Except String Unit :=
  match ListingSerializer.validate_price_per_night price with
  | Except.error m => (ls, Except.error m)
  | Except.ok v =>
      (ls.map (fun l => if l.property_id = pid then
                          ⟨l.property_id, l.host, l.name, l.description, l.location, v⟩
                        else l),
       Except.ok ())

/-- Modelled from the spec: enforcement of the
`unique_together = [property, user]` constraint declared in `Review.Meta`
of `listings/models.py` (the enforcing database engine is framework code
absent from `src/`). A row whose (property, user) pair is already present
is rejected and the table is untouched; otherwise the row is appended. -/
def insert_review (rs : List Review) (r : Review) :
    List Review × Except String Review :=
  if rs.any (fun x => x.property == r.property && x.user == r.user) then
    (rs, Except.error "UNIQUE constraint failed: review.property_id, review.user_id")
  else (rs ++ [r], Except.ok r)

/-- Modelled from the spec: cascade deletion of a Listing per the
`on_delete=models.CASCADE` declarations of `Booking.property` and
`Review.property` in `listings/models.py` (the cascading delete machinery
is framework code absent from `src/`). Removes the listing row and every
booking and review row referencing it. -/
def delete_listing (s : Store) (pid : Nat) : Store :=
  ⟨s.users,
   s.listings.filter (fun l => l.property_id != pid),
   s.bookings.filter (fun b => b.property != pid),
   s.reviews.filter (fun r => r.property != pid)⟩

/-- Concrete store used in the cascade-delete witness: two listings, one
booking and one review on each. -/
def cascadeStore : Store :=
  ⟨[], [⟨0, 3, "a", "b", "c", 100⟩, ⟨1, 3, "d", "e", "f", 200⟩],
   [⟨6, 0, 3, 1, 2, 300, "pending"⟩, ⟨7, 1, 3, 10, 12, 500, "pending"⟩],
   [⟨8, 0, 3, 5, "ok"⟩, ⟨9, 1, 3, 4, "ok"⟩]⟩

/-- The booking of `cascadeStore` referencing listing 1, which survives
the deletion of listing 0. -/
def cascadeBooking : Booking := ⟨7, 1, 3, 10, 12, 500, "pending"⟩

/-- The first listing created by a seeding run from an empty store. -/
def firstSeededListing : Listing := seeded_listings.getD 0 ⟨0, 0, "", "", "", 1⟩

/-- The first guest created by a seeding run from an empty store. -/
def firstSeededGuest : User := seeded_guests.getD 0 defUser

/-- A concrete stream of in-range booking draws (start offset 5, duration
2 nights), used as witness input. -/
def wCs : Nat → BookingChoice :=
  fun _ => ⟨firstSeededListing, firstSeededGuest, 5, 2, "pending"⟩

/-- A concrete outcome of `random.sample(listings, min(6, len(listings)))`
over the seeded listings, used as witness input. -/
def wSampled : List Listing := seeded_listings.take 6

/-- A concrete stream of in-range review draws (one review per sampled
listing), used as witness input. -/
def wRc : Nat → ReviewChoice :=
  fun _ => ⟨1, [⟨firstSeededGuest, 4,
    "Wonderful stay! The amenities were top-notch."⟩]⟩

/-- A concrete stream of booking draws whose start offset is the extreme
legal `random.randint(-30, 60)` outcome of -30: every generated booking
starts 30 days in the past. -/
def pastCs : Nat → BookingChoice :=
  fun _ => ⟨firstSeededListing, firstSeededGuest, -30, 2, "pending"⟩

/-- A store whose booking and review tables already contain rows
identical to those a seeding run with the witness draws creates, used to
witness that a repeated run inserts them again. -/
def preStore : Store :=
  ⟨[], [], create_bookings 0 wCs, create_reviews wSampled wRc⟩

end AlxTravel
namespace AlxTravel

/-- C10: the model-layer `Booking.clean` raises a validation error exactly
when both `start_date` and `end_date` are set and `end_date <= start_date`;
when either date is `None` it returns without error, so a booking with an
absent date passes the model-layer date validation. -/
theorem booking_clean_error_iff (s e : Int) (o : Option Int) :
    (Booking.clean (some s) (some e)
        = Except.error "End date must be after start date." ↔ e ≤ s)
    ∧ Booking.clean none o = Except.ok ()
    ∧ Booking.clean o none = Except.ok () := by
  refine ⟨?_, ?_, ?_⟩
  · by_cases h : e ≤ s <;> simp [Booking.clean, h]
  · cases o <;> rfl
  · cases o <;> rfl

/-- C1: for a submitted pair of dates, both the model-layer check
`Booking.clean` and the serializer check
`BookingSerializer.validate_booking` reject `end_date <= start_date` with
a validation error, on create (`inst = false`) and update
(`inst = true`) alike; and whenever either check accepts, the dates
satisfy `start_date < end_date`. -/
theorem booking_date_order_enforced (inst : Bool) (today s e : Int) :
    (e ≤ s →
      Booking.clean (some s) (some e)
          = Except.error "End date must be after start date."
      ∧ BookingSerializer.validate_booking inst today ⟨some s, some e⟩
          = Except.error "End date must be after start date.")
    ∧ (Booking.clean (some s) (some e) = Except.ok () → s < e)
    ∧ (BookingSerializer.validate_booking inst today ⟨some s, some e⟩
          = Except.ok ⟨some s, some e⟩ → s < e) := by
  refine ⟨fun h => ⟨?_, ?_⟩, fun h => ?_, fun h => ?_⟩
  · simp [Booking.clean, h]
  · simp [BookingSerializer.validate_booking, h]
  · rcases lt_or_le s e with h1 | h1
    · exact h1
    · simp [Booking.clean, h1] at h
  · rcases lt_or_le s e with h1 | h1
    · exact h1
    · simp [BookingSerializer.validate_booking, h1] at h

/-- Witness for C1 at a concrete rejected input (start 5, end 3). -/
theorem booking_date_order_enforced_witness :
    Booking.clean (some 5) (some 3)
        = Except.error "End date must be after start date."
    ∧ BookingSerializer.validate_booking false 0 ⟨some 5, some 3⟩
        = Except.error "End date must be after start date." :=
  (booking_date_order_enforced false 0 5 3).1 (by decide)

/-- C2: on a create (no existing instance), the serializer check
`BookingSerializer.validate_booking` rejects a submitted start date
earlier than today with a validation error; on an update of an existing
booking the past-date check is skipped, so any pair with
`start_date < end_date` is accepted even when the start date is past. -/
theorem new_booking_past_start_rejected (today s e : Int) :
    (s < today →
      ∃ msg, BookingSerializer.validate_booking false today ⟨some s, some e⟩
          = Except.error msg)
    ∧ (s < e →
      BookingSerializer.validate_booking true today ⟨some s, some e⟩
          = Except.ok ⟨some s, some e⟩) := by
  constructor
  · intro h
    by_cases h1 : e ≤ s
    · exact ⟨"End date must be after start date.",
        by simp [BookingSerializer.validate_booking, h1]⟩
    · exact ⟨"Start date cannot be in the past.",
        by simp [BookingSerializer.validate_booking, h1, h]⟩
  · intro h
    have h1 : ¬ e ≤ s := not_le.mpr h
    simp [BookingSerializer.validate_booking, h1]

/-- Witness for C2: a new booking starting at day 3 with today being day
10 is rejected; the same dates on an update are accepted. -/
theorem new_booking_past_start_rejected_witness :
    (∃ msg, BookingSerializer.validate_booking false 10 ⟨some 3, some 20⟩
        = Except.error msg)
    ∧ BookingSerializer.validate_booking true 10 ⟨some 3, some 20⟩
        = Except.ok ⟨some 3, some 20⟩ :=
  ⟨(new_booking_past_start_rejected 10 3 20).1 (by decide),
   (new_booking_past_start_rejected 10 3 20).2 (by decide)⟩

/-- C3: a submitted `price_per_night` of at most zero is rejected by
`ListingSerializer.validate_price_per_night` with the field error, on
create and update alike, and the listing table is unchanged; and both
write paths preserve the invariant that every stored listing has a
positive `price_per_night`. -/
theorem listing_price_positive_enforced (ls : List Listing) (pid host : Nat)
    (nm ds loc : String) (price : Int) :
    (price ≤ 0 →
      create_listing ls pid host nm ds loc price
          = (ls, Except.error "Price per night must be greater than zero.")
      ∧ update_listing ls pid price
          = (ls, Except.error "Price per night must be greater than zero."))
    ∧ ((∀ l ∈ ls, 0 < l.price_per_night) →
        (∀ l ∈ (create_listing ls pid host nm ds loc price).1, 0 < l.price_per_night)
        ∧ (∀ l ∈ (update_listing ls pid price).1, 0 < l.price_per_night)) := by
  constructor
  · intro h
    constructor
    · simp [create_listing, ListingSerializer.validate_price_per_night, h]
    · simp [update_listing, ListingSerializer.validate_price_per_night, h]
  · intro hinv
    by_cases h : price ≤ 0
    · constructor
      · simpa [create_listing, ListingSerializer.validate_price_per_night, h] using hinv
      · simpa [update_listing, ListingSerializer.validate_price_per_night, h] using hinv
    · have hpos : 0 < price := lt_of_not_le h
      constructor
      · intro l hl
        simp [create_listing, ListingSerializer.validate_price_per_night, h,
          List.mem_append] at hl
        rcases hl with hl | hl
        · exact hinv l hl
        · subst hl; exact hpos
      · intro l hl
        simp [update_listing, ListingSerializer.validate_price_per_night, h,
          List.mem_map] at hl
        obtain ⟨x, hx, hxl⟩ := hl
        by_cases hid : x.property_id = pid
        · simp [hid] at hxl
          subst hxl; exact hpos
        · simp [hid] at hxl
          subst hxl; exact hinv x hx

/-- Witness for C3: price 0 is rejected leaving a one-listing table
unchanged, and the positivity invariant holds for the resulting table. -/
theorem listing_price_positive_enforced_witness :
    (create_listing [⟨1, 2, "a", "b", "c", 100⟩] 9 2 "n" "d" "l" 0
        = ([⟨1, 2, "a", "b", "c", 100⟩],
           Except.error "Price per night must be greater than zero.")
      ∧ update_listing [⟨1, 2, "a", "b", "c", 100⟩] 1 0
        = ([⟨1, 2, "a", "b", "c", 100⟩],
           Except.error "Price per night must be greater than zero."))
    ∧ (∀ l ∈ (create_listing [⟨1, 2, "a", "b", "c", 100⟩] 9 2 "n" "d" "l" 0).1,
          0 < l.price_per_night) :=
  ⟨(listing_price_positive_enforced [⟨1, 2, "a", "b", "c", 100⟩] 9 2 "n" "d" "l" 0).1
      (by decide),
   ((listing_price_positive_enforced [⟨1, 2, "a", "b", "c", 100⟩] 9 2 "n" "d" "l" 0).2
      (by decide)).1⟩

end AlxTravel
namespace AlxTravel

/-- C4: inserting a review whose (property, user) pair is already present
in the review table is rejected by the declared unique-together
constraint and leaves the table unchanged, and insertion preserves the
invariant that all stored reviews have pairwise distinct
(property, user) pairs. -/
theorem review_unique_pair_enforced (rs : List Review) (r : Review) :
    ((∃ x ∈ rs, x.property = r.property ∧ x.user = r.user) →
      insert_review rs r
        = (rs, Except.error "UNIQUE constraint failed: review.property_id, review.user_id"))
    ∧ (rs.Pairwise distinctPair → (insert_review rs r).1.Pairwise distinctPair) := by
  constructor
  · intro h
    obtain ⟨x, hx, h1, h2⟩ := h
    have hany : rs.any (fun x => x.property == r.property && x.user == r.user) = true :=
      List.any_eq_true.mpr ⟨x, hx, by simp [h1, h2]⟩
    simp [insert_review, hany]
  · intro hp
    cases hb : rs.any (fun x => x.property == r.property && x.user == r.user) with
    | true => simpa [insert_review, hb] using hp
    | false =>
        have hall : ∀ x ∈ rs, distinctPair x r := by
          intro x hx hc
          have : rs.any (fun x => x.property == r.property && x.user == r.user) = true :=
            List.any_eq_true.mpr ⟨x, hx, by simp [hc.1, hc.2]⟩
          simp [this] at hb
        simp only [insert_review, hb, Bool.false_eq_true, if_false]
        refine List.pairwise_append.mpr ⟨hp, by simp, ?_⟩
        intro a ha b hbm
        have : b = r := by simpa using hbm
        subst this
        exact hall a ha

/-- Witness for C4: a second review for the pair (property 1, user 2) is
rejected and the table is unchanged. -/
theorem review_unique_pair_enforced_witness :
    insert_review [⟨0, 1, 2, 5, "Wonderful stay! The amenities were top-notch."⟩]
        ⟨9, 1, 2, 4, "Amazing place! Highly recommended for anyone visiting the area."⟩
      = ([⟨0, 1, 2, 5, "Wonderful stay! The amenities were top-notch."⟩],
         Except.error "UNIQUE constraint failed: review.property_id, review.user_id") :=
  (review_unique_pair_enforced
      [⟨0, 1, 2, 5, "Wonderful stay! The amenities were top-notch."⟩]
      ⟨9, 1, 2, 4, "Amazing place! Highly recommended for anyone visiting the area."⟩).1
    ⟨⟨0, 1, 2, 5, "Wonderful stay! The amenities were top-notch."⟩, by decide, by decide⟩

/-- C5: deleting a listing removes exactly the bookings and reviews whose
property reference is that listing: afterwards no surviving booking or
review references it, a booking or review survives iff it was stored and
references a different listing, and the user table is untouched. -/
theorem listing_cascade_delete (s : Store) (pid : Nat) :
    (∀ b ∈ (delete_listing s pid).bookings, b.property ≠ pid)
    ∧ (∀ r ∈ (delete_listing s pid).reviews, r.property ≠ pid)
    ∧ (∀ b : Booking, b ∈ (delete_listing s pid).bookings
        ↔ b ∈ s.bookings ∧ b.property ≠ pid)
    ∧ (∀ r : Review, r ∈ (delete_listing s pid).reviews
        ↔ r ∈ s.reviews ∧ r.property ≠ pid)
    ∧ (∀ l : Listing, l ∈ (delete_listing s pid).listings
        ↔ l ∈ s.listings ∧ l.property_id ≠ pid)
    ∧ (delete_listing s pid).users = s.users := by
  refine ⟨?_, ?_, ?_, ?_, ?_, rfl⟩
  · intro b hb
    simp [delete_listing, List.mem_filter] at hb
    exact hb.2
  · intro r hr
    simp [delete_listing, List.mem_filter] at hr
    exact hr.2
  · intro b
    simp [delete_listing, List.mem_filter]
  · intro r
    simp [delete_listing, List.mem_filter]
  · intro l
    simp [delete_listing, List.mem_filter]

/-- Witness for C5 on a concrete store: deleting listing 0 keeps the
booking on listing 1 (membership characterization applied to it), and
every surviving booking references a listing other than 0. -/
theorem listing_cascade_delete_witness :
    (cascadeBooking ∈ (delete_listing cascadeStore 0).bookings
      ↔ cascadeBooking ∈ cascadeStore.bookings ∧ cascadeBooking.property ≠ 0)
    ∧ cascadeBooking.property ≠ 0 :=
  ⟨(listing_cascade_delete cascadeStore 0).2.2.1 cascadeBooking,
   (listing_cascade_delete cascadeStore 0).1 cascadeBooking (by decide)⟩

end AlxTravel
namespace AlxTravel

/-- A stored user survives a `get_or_create_user` step (the table only
ever grows by appending). -/
theorem get_or_create_user_mono (st : List User) (d : UserData) (u : User)
    (h : u ∈ st) : u ∈ (get_or_create_user st d).1 := by
  unfold get_or_create_user
  cases hf : st.find? (fun u => u.username == d.username) with
  | some v => simpa using h
  | none => simp [List.mem_append]; exact Or.inl h

/-- After a `get_or_create_user` step, some stored user carries the
requested username. -/
theorem get_or_create_user_covers (st : List User) (d : UserData) :
    ∃ u ∈ (get_or_create_user st d).1, u.username = d.username := by
  unfold get_or_create_user
  cases hf : st.find? (fun u => u.username == d.username) with
  | some v =>
      refine ⟨v, by simp [List.mem_of_find?_eq_some hf], ?_⟩
      have := List.find?_some hf
      simpa using this
  | none => exact ⟨mkNewUser st.length d, by simp, rfl⟩

/-- When the requested username is already stored, `get_or_create_user`
leaves the table unchanged and returns a stored user. -/
theorem get_or_create_user_found (st : List User) (d : UserData)
    (h : ∃ u ∈ st, u.username = d.username) :
    (get_or_create_user st d).1 = st ∧ (get_or_create_user st d).2 ∈ st := by
  obtain ⟨u, hu, heq⟩ := h
  unfold get_or_create_user
  cases hf : st.find? (fun u => u.username == d.username) with
  | some v => exact ⟨rfl, List.mem_of_find?_eq_some hf⟩
  | none =>
      exfalso
      have := List.find?_eq_none.mp hf u hu
      simp [heq] at this

/-- A stored user survives the whole `create_users_go` loop. -/
theorem create_users_go_mono (ds : List UserData) (st : List User) (u : User)
    (h : u ∈ st) : u ∈ (create_users_go st ds).1 := by
  induction ds generalizing st with
  | nil => exact h
  | cons d rest ih =>
      simp only [create_users_go]
      exact ih _ (get_or_create_user_mono st d u h)

/-- After `create_users_go`, every processed username is present in the
table. -/
theorem create_users_go_covers (ds : List UserData) (st : List User) :
    ∀ d ∈ ds, ∃ u ∈ (create_users_go st ds).1, u.username = d.username := by
  induction ds generalizing st with
  | nil => intro d hd; cases hd
  | cons d0 rest ih =>
      intro d hd
      rcases List.mem_cons.mp hd with h | h
      · subst h
        obtain ⟨u, hu, hname⟩ := get_or_create_user_covers st d
        exact ⟨u, create_users_go_mono rest _ u hu, hname⟩
      · exact ih _ d h

/-- When every processed username is already stored, `create_users_go`
leaves the table unchanged. -/
theorem create_users_go_noop (ds : List UserData) (st : List User)
    (h : ∀ d ∈ ds, ∃ u ∈ st, u.username = d.username) :
    (create_users_go st ds).1 = st := by
  induction ds with
  | nil => rfl
  | cons d rest ih =>
      have h1 := (get_or_create_user_found st d (h d (List.mem_cons_self d rest))).1
      simp only [create_users_go, h1]
      exact ih (fun d0 hd0 => h d0 (List.mem_cons_of_mem d hd0))

/-- C9: seeding user creation is idempotent on username: a second
`create_users` run over a table produced by a first run adds no row, and
a `get_or_create_user` step for an already stored username reuses a
stored user and leaves the table unchanged; by contrast, listing,
booking and review creation insert unconditionally: every non-failing
listings run appends exactly its 8 fresh rows to whatever table it is
given, every bookings run produces exactly 15 fresh rows, and every
non-failing seed invocation without a preceding clear appends its
freshly created booking and review rows to the existing booking and
review tables, whatever identical rows those tables already hold. -/
theorem seed_idempotence_contrast :
    (∀ st : List User, (create_users (create_users st).1).1 = (create_users st).1)
    ∧ (∀ (st : List User) (d : UserData),
        (∃ u ∈ st, u.username = d.username) →
        (get_or_create_user st d).1 = st ∧ (get_or_create_user st d).2 ∈ st)
    ∧ (∀ (ls : List Listing) (users : List User) (res : List Listing × List Listing),
        create_listings ls users = some res →
        res.1 = ls ++ res.2 ∧ res.1.length = ls.length + 8)
    ∧ (∀ (today : Int) (cs : Nat → BookingChoice),
        (create_bookings today cs).length = 15)
    ∧ (∀ (today : Int) (cs : Nat → BookingChoice) (sampled : List Listing)
        (rc : Nat → ReviewChoice) (s st : Store),
        seedRun today cs sampled rc false s = some st →
        st.bookings = s.bookings ++ create_bookings today cs
        ∧ st.reviews = s.reviews ++ create_reviews sampled rc) := by
  refine ⟨?_, ?_, ?_, ?_, ?_⟩
  · intro st
    exact create_users_go_noop users_data (create_users st).1
      (create_users_go_covers users_data st)
  · intro st d h
    exact get_or_create_user_found st d h
  · intro ls users res h
    simp only [create_listings] at h
    cases he : (users.filter (fun u => strContains u.username "host")).isEmpty with
    | true =>
        rw [he, if_pos rfl] at h
        exact Option.noConfusion h
    | false =>
        rw [he, if_neg Bool.false_ne_true] at h
        injection h with h
        subst h
        exact ⟨rfl, by simp [List.length_mapIdx, listings_data]⟩
  · intro today cs
    simp [create_bookings]
  · intro today cs sampled rc s st h
    simp only [seedRun] at h
    rw [if_neg Bool.false_ne_true] at h
    split at h
    · exact Option.noConfusion h
    · split at h
      · exact Option.noConfusion h
      · injection h with h
        subst h
        exact ⟨rfl, rfl⟩

/-- Witness for C9: a second seeding of the users over the table produced
by a first run from empty leaves the table unchanged; a step for the
already stored username john_host is a no-op; a listings run over a
one-row table yields 9 rows; a bookings run yields 15 rows; a seed run
without clear over a store that already holds identical booking and
review rows appends its bookings and reviews to those tables again. -/
theorem seed_idempotence_contrast_witness :
    (create_users (create_users []).1).1 = (create_users []).1
    ∧ ((get_or_create_user seeded_users ⟨"john_host", "x", "y", "z"⟩).1 = seeded_users
        ∧ (get_or_create_user seeded_users ⟨"john_host", "x", "y", "z"⟩).2 ∈ seeded_users)
    ∧ (((create_listings [⟨99, 0, "n", "d", "l", 100⟩] seeded_users).getD ([], [])).1
        = [⟨99, 0, "n", "d", "l", 100⟩]
            ++ ((create_listings [⟨99, 0, "n", "d", "l", 100⟩] seeded_users).getD ([], [])).2
        ∧ ((create_listings [⟨99, 0, "n", "d", "l", 100⟩] seeded_users).getD ([], [])).1.length
            = 9)
    ∧ (create_bookings 0 (fun _ => ⟨⟨0, 0, "", "", "", 1⟩, defUser, 0, 2, "pending"⟩)).length
        = 15
    ∧ (∃ st : Store, seedRun 0 wCs wSampled wRc false preStore = some st
        ∧ st.bookings = preStore.bookings ++ create_bookings 0 wCs
        ∧ st.reviews = preStore.reviews ++ create_reviews wSampled wRc) := by
  refine ⟨seed_idempotence_contrast.1 [], ?_, ?_,
    seed_idempotence_contrast.2.2.2.1 0 _, ?_⟩
  · exact seed_idempotence_contrast.2.1 seeded_users ⟨"john_host", "x", "y", "z"⟩
      ⟨mkNewUser 0 ⟨"john_host", "john@example.com", "John", "Doe"⟩, by decide, rfl⟩
  · have h := seed_idempotence_contrast.2.2.1 [⟨99, 0, "n", "d", "l", 100⟩] seeded_users
      ((create_listings [⟨99, 0, "n", "d", "l", 100⟩] seeded_users).getD ([], []))
      (by decide)
    simpa using h
  · have h4 := seed_idempotence_contrast.2.2.2.2 0 wCs wSampled wRc preStore
      ⟨(create_users preStore.users).1,
       ((create_listings preStore.listings (create_users preStore.users).2).getD ([], [])).1,
       preStore.bookings ++ create_bookings 0 wCs,
       preStore.reviews ++ create_reviews wSampled wRc⟩ rfl
    exact ⟨_, rfl, h4.1, h4.2⟩

end AlxTravel
namespace AlxTravel

/-- Each sampled listing contributes exactly its picks to the review
rows, so the total is bounded by a uniform bound on the pick counts. -/
theorem create_reviews_go_length_le (rc : Nat → ReviewChoice) (bound : Nat)
    (h : ∀ i, (rc i).picks.length ≤ bound) :
    ∀ (i : Nat) (sampled : List Listing),
      (create_reviews_go rc i sampled).length ≤ bound * sampled.length := by
  intro i sampled
  induction sampled generalizing i with
  | nil => simp [create_reviews_go]
  | cons l rest ih =>
      simp only [create_reviews_go, List.length_append, List.length_cons]
      have h1 : (reviews_for l (rc i)).length ≤ bound := by
        simpa [reviews_for] using h i
      calc (reviews_for l (rc i)).length + (create_reviews_go rc (i + 1) rest).length
          ≤ bound + bound * rest.length := Nat.add_le_add h1 (ih (i + 1))
        _ = bound * (rest.length + 1) := by ring

/-- Every created review row comes from one sampled listing and one of
its guest picks. -/
theorem create_reviews_go_mem (rc : Nat → ReviewChoice) :
    ∀ (i : Nat) (sampled : List Listing) (r : Review),
      r ∈ create_reviews_go rc i sampled →
      ∃ (j : Nat) (l : Listing), l ∈ sampled ∧ ∃ p ∈ (rc j).picks,
        (⟨0, l.property_id, p.guest.id, p.rating, p.comment⟩ : Review) = r := by
  intro i sampled
  induction sampled generalizing i with
  | nil => intro r hr; simp [create_reviews_go] at hr
  | cons l rest ih =>
      intro r hr
      simp only [create_reviews_go, List.mem_append] at hr
      rcases hr with hr | hr
      · obtain ⟨p, hp, he⟩ := List.mem_map.mp hr
        exact ⟨i, l, List.mem_cons_self l rest, p, hp, he⟩
      · obtain ⟨j, l0, hl0, p, hp, he⟩ := ih (i + 1) r hr
        exact ⟨j, l0, List.mem_cons_of_mem l hl0, p, hp, he⟩

/-- Every created review row references a sampled listing. -/
theorem create_reviews_go_property (rc : Nat → ReviewChoice) :
    ∀ (i : Nat) (sampled : List Listing) (r : Review),
      r ∈ create_reviews_go rc i sampled →
      r.property ∈ sampled.map Listing.property_id := by
  intro i sampled r hr
  obtain ⟨j, l, hl, p, hp, he⟩ := create_reviews_go_mem rc i sampled r hr
  rw [← he]
  exact List.mem_map.mpr ⟨l, hl, rfl⟩

/-- A duplicate-free selection out of a pool with duplicate-free images
has duplicate-free images. -/
theorem map_nodup_of_sub {α β : Type} (f : α → β) (g l : List α)
    (hsub : ∀ x ∈ l, x ∈ g) (hn : l.Nodup) (hg : (g.map f).Nodup) :
    (l.map f).Nodup := by
  refine hn.map_on ?_
  intro x hx y hy hxy
  exact List.inj_on_of_nodup_map hg (hsub x hx) (hsub y hy) hxy

/-- When the sampled listings have pairwise distinct ids and each pick
list has pairwise distinct guest ids, the created review rows have
pairwise distinct (property, user) pairs. -/
theorem create_reviews_go_pairwise (rc : Nat → ReviewChoice)
    (hg : ∀ j, ((rc j).picks.map (fun p => p.guest.id)).Nodup) :
    ∀ (i : Nat) (sampled : List Listing),
      (sampled.map Listing.property_id).Nodup →
      (create_reviews_go rc i sampled).Pairwise distinctPair := by
  intro i sampled
  induction sampled generalizing i with
  | nil => intro _; simp [create_reviews_go]
  | cons l rest ih =>
      intro hnd
      rw [List.map_cons, List.nodup_cons] at hnd
      simp only [create_reviews_go]
      refine List.pairwise_append.mpr ⟨?_, ih (i + 1) hnd.2, ?_⟩
      · unfold reviews_for
        rw [List.pairwise_map]
        have hpw : (rc i).picks.Pairwise (fun a b => a.guest.id ≠ b.guest.id) :=
          List.pairwise_map.mp (hg i)
        refine hpw.imp ?_
        intro a b hab hc
        exact hab hc.2
      · intro a ha b hb hc
        obtain ⟨p, hp, he⟩ := List.mem_map.mp ha
        have hpa : a.property = l.property_id := by rw [← he]
        have hpb : b.property ∈ rest.map Listing.property_id :=
          create_reviews_go_property rc (i + 1) rest b hb
        rw [← hc.1, hpa] at hpb
        exact hnd.1 hpb

/-- C6: a seed run with the clear flag on an empty store raises no error
and ends with exactly 6 users, 8 listings and 15 bookings, and at most 18
reviews, for every outcome of the random draws (the hypotheses are the
size guarantees of `random.sample` and `random.randint(1, 3)`). -/
theorem seed_clear_empty_counts (today : Int) (cs : Nat → BookingChoice)
    (sampled : List Listing) (rc : Nat → ReviewChoice)
    (hs : sampled.length = min 6 seeded_listings.length)
    (hnum : ∀ i, 1 ≤ (rc i).num ∧ (rc i).num ≤ 3)
    (hpick : ∀ i, (rc i).picks.length = min (rc i).num seeded_guests.length) :
    ∃ st : Store, seedRun today cs sampled rc true emptyStore = some st
      ∧ st.users.length = 6 ∧ st.listings.length = 8
      ∧ st.bookings.length = 15 ∧ st.reviews.length ≤ 18 := by
  refine ⟨⟨(create_users []).1,
           ((create_listings [] (create_users []).2).getD ([], [])).1,
           create_bookings today cs,
           create_reviews sampled rc⟩, by rfl, ?_, ?_, ?_, ?_⟩
  · show (create_users []).1.length = 6
    decide
  · show ((create_listings [] (create_users []).2).getD ([], [])).1.length = 8
    decide
  · simp [create_bookings]
  · have hb : ∀ i, (rc i).picks.length ≤ 3 := by
      intro i
      rw [hpick i]
      exact le_trans (Nat.min_le_left _ _) (hnum i).2
    have hlen : sampled.length = 6 := by rw [hs]; decide
    calc (create_reviews sampled rc).length
        ≤ 3 * sampled.length := create_reviews_go_length_le rc 3 hb 0 sampled
      _ = 18 := by rw [hlen]

/-- Witness for C6 with concrete random draws. -/
theorem seed_clear_empty_counts_witness :
    ∃ st : Store, seedRun 0 wCs wSampled wRc true emptyStore = some st
      ∧ st.users.length = 6 ∧ st.listings.length = 8
      ∧ st.bookings.length = 15 ∧ st.reviews.length ≤ 18 :=
  seed_clear_empty_counts 0 wCs wSampled wRc (by decide)
    (fun i => show 1 ≤ (1 : Nat) ∧ (1 : Nat) ≤ 3 by decide)
    (fun i => show (1 : Nat) = min 1 seeded_guests.length by decide)

/-- C7: every booking produced by the seeder has a start date equal to
today plus an offset in [-30, 60], an end date equal to the start date
plus a duration in [2, 14], and a total price equal to the chosen
listing's nightly price times the duration, exactly, in integer cents. -/
theorem seeded_booking_shape (today : Int) (listings : List Listing)
    (cs : Nat → BookingChoice)
    (hmem : ∀ i, (cs i).listing ∈ listings)
    (hoff : ∀ i, -30 ≤ (cs i).start_offset ∧ (cs i).start_offset ≤ 60)
    (hdur : ∀ i, 2 ≤ (cs i).duration ∧ (cs i).duration ≤ 14) :
    ∀ b ∈ create_bookings today cs,
      ∃ (k : Int) (d : Nat) (l : Listing),
        -30 ≤ k ∧ k ≤ 60 ∧ 2 ≤ d ∧ d ≤ 14 ∧ l ∈ listings
        ∧ b.property = l.property_id
        ∧ b.start_date = today + k
        ∧ b.end_date = b.start_date + (d : Int)
        ∧ b.total_price = l.price_per_night * (d : Int) := by
  intro b hb
  simp only [create_bookings, List.mem_map, List.mem_range] at hb
  obtain ⟨i, hi, hbi⟩ := hb
  subst hbi
  exact ⟨(cs i).start_offset, (cs i).duration, (cs i).listing,
    (hoff i).1, (hoff i).2, (hdur i).1, (hdur i).2, hmem i,
    rfl, rfl, rfl, rfl⟩

/-- Witness for C7 at the first booking of a concrete run. -/
theorem seeded_booking_shape_witness :
    ∃ (k : Int) (d : Nat) (l : Listing),
      -30 ≤ k ∧ k ≤ 60 ∧ 2 ≤ d ∧ d ≤ 14 ∧ l ∈ seeded_listings
      ∧ (mkBooking 0 0 (wCs 0)).property = l.property_id
      ∧ (mkBooking 0 0 (wCs 0)).start_date = 0 + k
      ∧ (mkBooking 0 0 (wCs 0)).end_date = (mkBooking 0 0 (wCs 0)).start_date + (d : Int)
      ∧ (mkBooking 0 0 (wCs 0)).total_price = l.price_per_night * (d : Int) :=
  seeded_booking_shape 0 seeded_listings wCs
    (fun i => show firstSeededListing ∈ seeded_listings by decide)
    (fun i => show -30 ≤ (5 : Int) ∧ (5 : Int) ≤ 60 by decide)
    (fun i => show 2 ≤ (2 : Nat) ∧ (2 : Nat) ≤ 14 by decide)
    (mkBooking 0 0 (wCs 0)) (by decide)

/-- C8 counterexample: the draw stream `pastCs` is a legal outcome of the
seeder's random primitives (offset -30 is within `randint(-30, 60)`,
duration 2 within `randint(2, 14)`, listing and guest are seeded rows),
yet with today = 0 every generated booking starts in the past, so a
seeding run does not guarantee `start_date` not in the past. -/
theorem seeded_booking_past_start_cex :
    (-30 ≤ (pastCs 0).start_offset ∧ (pastCs 0).start_offset ≤ 60
      ∧ 2 ≤ (pastCs 0).duration ∧ (pastCs 0).duration ≤ 14
      ∧ (pastCs 0).listing ∈ seeded_listings ∧ (pastCs 0).guest ∈ seeded_guests)
    ∧ ∃ b ∈ create_bookings 0 pastCs, b.start_date < 0 := by decide

/-- C8 (amended): every row produced by a seeding run satisfies the
entity invariants enforceable on the seeded data: seeded listings have
positive prices, seeded bookings have `start_date < end_date` and a
positive total price, seeded reviews have ratings within [1, 5], and no
two seeded reviews share a (property, user) pair. (Seeded bookings may
start in the past; see the counterexample.) -/
theorem seeded_rows_invariants (today : Int) (cs : Nat → BookingChoice)
    (sampled : List Listing) (rc : Nat → ReviewChoice)
    (hmem : ∀ i, (cs i).listing ∈ seeded_listings)
    (hdur : ∀ i, 2 ≤ (cs i).duration)
    (hsam : ∀ l ∈ sampled, l ∈ seeded_listings)
    (hnodup : sampled.Nodup)
    (hguest : ∀ i, ∀ p ∈ (rc i).picks, p.guest ∈ seeded_guests)
    (hgnodup : ∀ i, ((rc i).picks.map GuestPick.guest).Nodup)
    (hrat : ∀ i, ∀ p ∈ (rc i).picks, 3 ≤ p.rating ∧ p.rating ≤ 5) :
    (∀ l ∈ seeded_listings, 0 < l.price_per_night)
    ∧ (∀ b ∈ create_bookings today cs,
        b.start_date < b.end_date ∧ 0 < b.total_price)
    ∧ (∀ r ∈ create_reviews sampled rc, 1 ≤ r.rating ∧ r.rating ≤ 5)
    ∧ (create_reviews sampled rc).Pairwise distinctPair := by
  have hprice : ∀ l ∈ seeded_listings, 0 < l.price_per_night := by decide
  refine ⟨hprice, ?_, ?_, ?_⟩
  · intro b hb
    simp only [create_bookings, List.mem_map, List.mem_range] at hb
    obtain ⟨i, hi, hbi⟩ := hb
    subst hbi
    have hd : (0 : Int) < ((cs i).duration : Int) := by
      have := hdur i
      omega
    constructor
    · show today + (cs i).start_offset
        < today + (cs i).start_offset + ((cs i).duration : Int)
      omega
    · exact mul_pos (hprice (cs i).listing (hmem i)) hd
  · intro r hr
    obtain ⟨j, l, hl, p, hp, he⟩ := create_reviews_go_mem rc 0 sampled r hr
    rw [← he]
    have := hrat j p hp
    show 1 ≤ p.rating ∧ p.rating ≤ 5
    omega
  · refine create_reviews_go_pairwise rc ?_ 0 sampled ?_
    · intro j
      have : ((rc j).picks.map GuestPick.guest).map User.id
          = (rc j).picks.map (fun p => p.guest.id) := by
        rw [List.map_map]; rfl
      rw [← this]
      refine map_nodup_of_sub User.id seeded_guests _ ?_ (hgnodup j) (by decide)
      intro x hx
      obtain ⟨p, hp, he⟩ := List.mem_map.mp hx
      rw [← he]
      exact hguest j p hp
    · exact map_nodup_of_sub Listing.property_id seeded_listings sampled hsam
        hnodup (by decide)

/-- Witness for C8 (amended) with concrete random draws: the price
invariant, the date and price invariants at the run's first booking, and
pair distinctness of the run's reviews. -/
theorem seeded_rows_invariants_witness :
    (∀ l ∈ seeded_listings, 0 < l.price_per_night)
    ∧ ((mkBooking 0 0 (wCs 0)).start_date < (mkBooking 0 0 (wCs 0)).end_date
        ∧ 0 < (mkBooking 0 0 (wCs 0)).total_price)
    ∧ (create_reviews wSampled wRc).Pairwise distinctPair := by
  have h := seeded_rows_invariants 0 wCs wSampled wRc
    (fun i => show firstSeededListing ∈ seeded_listings by decide)
    (fun i => show 2 ≤ (2 : Nat) by decide)
    (by decide) (by decide)
    (fun i => by
      intro p hp
      have hpv : p = ⟨firstSeededGuest, 4,
          "Wonderful stay! The amenities were top-notch."⟩ := by
        simpa [wRc] using hp
      rw [hpv]
      show firstSeededGuest ∈ seeded_guests
      decide)
    (fun i => by show ([firstSeededGuest] : List User).Nodup; decide)
    (fun i => by
      intro p hp
      have hpv : p = ⟨firstSeededGuest, 4,
          "Wonderful stay! The amenities were top-notch."⟩ := by
        simpa [wRc] using hp
      rw [hpv]
      show 3 ≤ (4 : Int) ∧ (4 : Int) ≤ 5
      decide)
  exact ⟨h.1, h.2.1 (mkBooking 0 0 (wCs 0)) (by decide), h.2.2.2⟩

end AlxTravel
